import Mathlib

/-!
Verification of the TPA travel-planning backend against its design
specification.

The definitions below are a shallow embedding of the Python sources under
`src/backend/`:

* `services/db_checkpointer.py` — the PostgreSQL checkpoint store
  (`put`, `get`, `get_tuple`, `_serialize_channel_values`,
  `_deserialize_channel_values`);
* `services/ai_service.py` — the tools (`get_current_date`,
  `search_flights`, `search_hotels`, `search_news`), the per-request data
  store and the `chat` entry point;
* `services/flight_service.py`, `services/hotel_service.py`,
  `services/news_service.py` — the data-reduction parsers
  (`parse_flight_data_to_toon`, `parse_hotel_json`, `parse_news_data`)
  and the city-to-IATA lookup (`get_iata`, `get_flight_details`).

Conventions of the embedding:

* Python dict values that are only carried through JSON untouched are
  modelled by `String` (their JSON text) — serialization is `json.dumps`
  followed by `json.loads`, the identity on such values.
* Provider JSON numbers appear in the code only interpolated into f-strings
  or copied verbatim; they are modelled by their rendered string form.
* Absent dict keys are modelled with `Option`, and `.get(k, default)`
  with `Option.getD`.
* I/O faults (network, storage) are modelled by explicit outcome values
  passed to the function that the corresponding `try`/`except` wraps.
-/

namespace TPA

/-! ### Messages (the LangChain message shapes handled by the checkpointer) -/

/-- A tool call emitted by an `ai` message: `{id, tool name, structured
arguments}`.  The arguments are carried opaquely through JSON, modelled by
their JSON text. -/
structure ToolCallRequest where
  id : String
  name : String
  args : String
deriving DecidableEq

/-- The four LangChain message roles stored in the `messages` channel
(`SystemMessage`, `HumanMessage`, `AIMessage`, `ToolMessage`).  Every role
carries `content` and `additional_kwargs`; `ai` additionally carries
`tool_calls`, `tool` additionally carries `tool_call_id`. -/
inductive Msg where
  | system (content : String) (additional_kwargs : List (String × String))
  | human (content : String) (additional_kwargs : List (String × String))
  | ai (content : String) (additional_kwargs : List (String × String))
      (tool_calls : List ToolCallRequest)
  | tool (content : String) (additional_kwargs : List (String × String))
      (tool_call_id : String)
deriving DecidableEq

/-- One serialized message as written by `_serialize_channel_values`
(db_checkpointer.py lines 303-310).  The dict literal there has exactly the
keys `"type"`, `"content"`, `"additional_kwargs"`, `"tool_calls"` — in
particular a `tool` message's `tool_call_id` is not among the stored keys. -/
structure SerMsg where
  type : String
  content : String
  additional_kwargs : List (String × String)
  tool_calls : List ToolCallRequest
deriving DecidableEq

/-- The per-message body of the list comprehension in
`_serialize_channel_values`: `msg.type` and `msg.content` exist on every
LangChain message, `getattr(msg, "additional_kwargs", {})` returns the
message's kwargs, and `getattr(msg, "tool_calls", [])` returns the `ai`
message's list and the default `[]` for the other three roles. -/
def serialize_msg : Msg → SerMsg
  | .system c kw => { type := "system", content := c, additional_kwargs := kw, tool_calls := [] }
  | .human c kw => { type := "human", content := c, additional_kwargs := kw, tool_calls := [] }
  | .ai c kw tcs => { type := "ai", content := c, additional_kwargs := kw, tool_calls := tcs }
  | .tool c kw _tcid => { type := "tool", content := c, additional_kwargs := kw, tool_calls := [] }

/-- The per-message body of the reconstruction loop in
`_deserialize_channel_values` (db_checkpointer.py lines 336-353):
`HumanMessage(content)` and `SystemMessage(content)` are built with fresh
(empty) kwargs; the `ai` branch restores `additional_kwargs` and
`tool_calls`; the `tool` branch reads `msg_data.get("tool_call_id", "")`,
and since the serializer stores no `"tool_call_id"` key the default `""` is
what that read produces for every serialized tool message; any other type
string falls back to `HumanMessage(content)`. -/
def deserialize_msg (m : SerMsg) : Msg :=
  if m.type == "human" then .human m.content []
  else if m.type == "ai" then .ai m.content m.additional_kwargs m.tool_calls
  else if m.type == "system" then .system m.content []
  else if m.type == "tool" then .tool m.content [] ""
  else .human m.content []

/-- The `messages` branch of `_serialize_channel_values`. -/
def serialize_messages (msgs : List Msg) : List SerMsg :=
  msgs.map serialize_msg

/-- The `messages` branch of `_deserialize_channel_values`. -/
def deserialize_messages (msgs : List SerMsg) : List Msg :=
  msgs.map deserialize_msg

/-- C1: Serializing a checkpoint's message list with the Checkpoint Store's
channel-value serializer and then deserializing it is claimed to reproduce
an identical ordered message list for all four roles, including the
answered-call id (`tool_call_id`) of every tool message.  Evaluating the
round trip at a four-role message list whose tool message answers call
`"call-1"` shows that length, role per position, content and the `ai`
message's `ToolCallRequest` list are reproduced, but the tool message comes
back with `tool_call_id = ""`: the serializer never writes a
`"tool_call_id"` key, while the deserializer reads it with default `""`. -/
theorem c1_roundtrip_loses_tool_call_id :
    deserialize_messages (serialize_messages
      [Msg.system "sys" [], Msg.human "hi" [],
       Msg.ai "calling" [] [⟨"call-1", "search_flights", "null"⟩],
       Msg.tool "42" [] "call-1"])
      = [Msg.system "sys" [], Msg.human "hi" [],
         Msg.ai "calling" [] [⟨"call-1", "search_flights", "null"⟩],
         Msg.tool "42" [] ""]
    ∧ deserialize_messages (serialize_messages
      [Msg.system "sys" [], Msg.human "hi" [],
       Msg.ai "calling" [] [⟨"call-1", "search_flights", "null"⟩],
       Msg.tool "42" [] "call-1"])
      ≠ [Msg.system "sys" [], Msg.human "hi" [],
         Msg.ai "calling" [] [⟨"call-1", "search_flights", "null"⟩],
         Msg.tool "42" [] "call-1"] := by
  exact ⟨rfl, by decide⟩

/-! ### Checkpoints and their stored form -/

/-- The channel values of a checkpoint.  `_serialize_channel_values` and
`_deserialize_channel_values` special-case exactly the key `"messages"`
holding a list of messages; every other channel's value travels through
JSON untouched and is modelled by its JSON text.  (The `str()` fallback for
values `json.dumps` rejects is the lossy path flagged in spec §9; no claim
exercises it and such values are outside this model's `others` domain.) -/
structure ChannelValues where
  messages : Option (List Msg)
  others : List (String × String)
deriving DecidableEq

/-- Stored (serialized) channel values. -/
structure SerChannelValues where
  messages : Option (List SerMsg)
  others : List (String × String)
deriving DecidableEq

/-- `_serialize_channel_values`: the `"messages"` entry is serialized
message by message, every other entry is kept as-is. -/
def serialize_channel_values (cv : ChannelValues) : SerChannelValues :=
  { messages := cv.messages.map serialize_messages
    others := cv.others }

/-- `_deserialize_channel_values`: the `"messages"` entry is reconstructed
message by message, every other entry is kept as-is. -/
def deserialize_channel_values (cv : SerChannelValues) : ChannelValues :=
  { messages := cv.messages.map deserialize_messages
    others := cv.others }

/-- A LangGraph checkpoint as the checkpointer reads it: `v`, `ts`, `id`,
optional `parent_id`, channel values, per-channel versions and seen
versions (version values travel through JSON untouched, modelled by their
JSON text). -/
structure Checkpoint where
  v : Nat
  ts : String
  id : String
  parent_id : Option String
  channel_values : ChannelValues
  channel_versions : List (String × String)
  versions_seen : List (String × List (String × String))
deriving DecidableEq

/-- The JSON object `put` stores in the `checkpoint_data` column
(db_checkpointer.py lines 87-94): keys `v`, `ts`, `id`, `channel_values`,
`channel_versions`, `versions_seen` — the parent id goes to a separate
column and is not part of this blob. -/
structure SerCheckpoint where
  v : Nat
  ts : String
  id : String
  channel_values : SerChannelValues
  channel_versions : List (String × String)
  versions_seen : List (String × List (String × String))
deriving DecidableEq

def serialize_checkpoint (c : Checkpoint) : SerCheckpoint :=
  { v := c.v, ts := c.ts, id := c.id
    channel_values := serialize_channel_values c.channel_values
    channel_versions := c.channel_versions
    versions_seen := c.versions_seen }

/-- The checkpoint dict rebuilt by `get` (db_checkpointer.py lines
152-159).  It has no `parent_id` key — the stored `parent_checkpoint_id`
column is not read back — so the reconstructed checkpoint's parent is
absent (`none`). -/
def deserialize_checkpoint (sc : SerCheckpoint) : Checkpoint :=
  { v := sc.v, ts := sc.ts, id := sc.id
    parent_id := none
    channel_values := deserialize_channel_values sc.channel_values
    channel_versions := sc.channel_versions
    versions_seen := sc.versions_seen }

/-- What a stored checkpoint looks like after `put` then `get`. -/
def roundtrip_checkpoint (c : Checkpoint) : Checkpoint :=
  deserialize_checkpoint (serialize_checkpoint c)

/-- Checkpoint metadata as serialized by `put` (source, step, writes). -/
structure CheckpointMeta where
  source : String
  step : Int
  writes : Option String
deriving DecidableEq

/-! ### The PostgreSQL checkpoint store -/

/-- One row of the `checkpoints` table as written by `put`
(db_checkpointer.py lines 104-110).  `created_at` is the database's
insertion timestamp, modelled as a counter that grows by one per insert
(row timestamps are strictly increasing in write order, which realises the
spec's "latest = greatest timestamp, tie-broken by write order"). -/
structure CheckpointRow where
  thread_id : String
  checkpoint_id : String
  parent_checkpoint_id : Option String
  checkpoint_data : SerCheckpoint
  checkpoint_metadata : CheckpointMeta
  created_at : Nat
deriving DecidableEq

/-- The persistent state: the `conversations` table (one record per
thread) and the `checkpoints` table, plus the next insertion timestamp. -/
structure DbState where
  conversations : List String
  rows : List CheckpointRow
  next_ts : Nat
deriving DecidableEq

def DbState.empty : DbState := { conversations := [], rows := [], next_ts := 0 }

/-- `_ensure_conversation_exists`: insert the thread record if absent. -/
def ensure_conversation_exists (convs : List String) (thread_id : String) : List String :=
  if convs.contains thread_id then convs else convs ++ [thread_id]

/-- The checkpoint row that `put` inserts. -/
def mk_row (s : DbState) (thread_id : String) (c : Checkpoint) (m : CheckpointMeta) :
    CheckpointRow :=
  { thread_id := thread_id
    checkpoint_id := c.id
    parent_checkpoint_id := c.parent_id
    checkpoint_data := serialize_checkpoint c
    checkpoint_metadata := m
    created_at := s.next_ts }

/-- `put`: ensure the conversation exists, serialize the checkpoint and
append a new checkpoint row.  Nothing else in the state is touched. -/
def put (s : DbState) (thread_id : String) (c : Checkpoint) (m : CheckpointMeta) : DbState :=
  { conversations := ensure_conversation_exists s.conversations thread_id
    rows := s.rows ++ [mk_row s thread_id c m]
    next_ts := s.next_ts + 1 }

/-- A sequence of `put` calls on one thread. -/
def put_many (s : DbState) (thread_id : String) : List (Checkpoint × CheckpointMeta) → DbState
  | [] => s
  | (c, m) :: rest => put_many (put s thread_id c m) thread_id rest

/-- The query in `get`: `SELECT ... WHERE thread_id = tid ORDER BY
created_at DESC LIMIT 1` — the matching row with the greatest
`created_at`. -/
def latest_row (rows : List CheckpointRow) (thread_id : String) : Option CheckpointRow :=
  rows.foldl
    (fun acc r =>
      if r.thread_id == thread_id then
        match acc with
        | none => some r
        | some b => if b.created_at < r.created_at then some r else some b
      else acc)
    none

/-- A fault during `get`'s `try` block — a storage-layer error raised out
of `_get_session` or a `json.loads`/deserialization error — carrying its
message. -/
def ReadFault := Option String

/-- `get`: retrieve and deserialize the latest checkpoint of a thread;
a missing row gives `none`, and the `except` clause (db_checkpointer.py
lines 164-166) turns any fault raised inside the `try` into `none` as
well. -/
def get (s : DbState) (thread_id : String) (fault : ReadFault) : Option Checkpoint :=
  match fault with
  | some _ => none
  | none => (latest_row s.rows thread_id).map fun r => deserialize_checkpoint r.checkpoint_data

/-- The tuple `get_tuple`/`aget_tuple` build around `get`'s result, with
fabricated metadata (`source="input"`, `step=-1`). -/
structure CheckpointTup where
  checkpoint : Checkpoint
  source : String
  step : Int
deriving DecidableEq

/-- `get_tuple` (and `aget_tuple`): `None` when `get` returns `None`,
otherwise the tuple wrapping `get`'s checkpoint. -/
def get_tuple (s : DbState) (thread_id : String) (fault : ReadFault) : Option CheckpointTup :=
  (get s thread_id fault).map fun c => { checkpoint := c, source := "input", step := -1 }

/-! ### Lemmas about the checkpoint store -/

/-- The fold step of `latest_row`. -/
def latest_step (thread_id : String) (acc : Option CheckpointRow) (r : CheckpointRow) :
    Option CheckpointRow :=
  if r.thread_id == thread_id then
    match acc with
    | none => some r
    | some b => if b.created_at < r.created_at then some r else some b
  else acc

theorem latest_row_eq_foldl (rows : List CheckpointRow) (tid : String) :
    latest_row rows tid = rows.foldl (latest_step tid) none := rfl

theorem latest_step_cases (tid : String) (acc : Option CheckpointRow) (r b : CheckpointRow)
    (h : latest_step tid acc r = some b) : acc = some b ∨ b = r := by
  cases acc with
  | none =>
    simp only [latest_step] at h
    split at h
    · exact Or.inr (Option.some_inj.mp h).symm
    · exact absurd h (by simp)
  | some c =>
    simp only [latest_step] at h
    split at h
    · split at h
      · exact Or.inr (Option.some_inj.mp h).symm
      · exact Or.inl h
    · exact Or.inl h

theorem latest_step_foldl_mem (rows : List CheckpointRow) (tid : String) :
    ∀ (acc : Option CheckpointRow) (b : CheckpointRow),
      rows.foldl (latest_step tid) acc = some b → acc = some b ∨ b ∈ rows := by
  induction rows with
  | nil => intro acc b h; exact Or.inl h
  | cons r rows ih =>
    intro acc b h
    rcases ih (latest_step tid acc r) b h with h' | h'
    · rcases latest_step_cases tid acc r b h' with h2 | h2
      · exact Or.inl h2
      · exact Or.inr (by simp [h2])
    · exact Or.inr (List.mem_cons_of_mem _ h')

theorem latest_row_mem (rows : List CheckpointRow) (tid : String) (b : CheckpointRow)
    (h : latest_row rows tid = some b) : b ∈ rows := by
  rcases latest_step_foldl_mem rows tid none b h with h' | h'
  · cases h'
  · exact h'

/-- Appending a row that matches the thread and strictly dominates every
existing row's timestamp makes it the latest row. -/
theorem latest_row_append (rows : List CheckpointRow) (tid : String) (r : CheckpointRow)
    (hmatch : r.thread_id = tid)
    (hdom : ∀ x ∈ rows, x.created_at < r.created_at) :
    latest_row (rows ++ [r]) tid = some r := by
  rw [latest_row_eq_foldl, List.foldl_append]
  rcases h : rows.foldl (latest_step tid) none with _ | b
  · simp [latest_step, hmatch]
  · have hb : b ∈ rows := latest_row_mem rows tid b h
    simp [latest_step, hmatch, hdom b hb]

/-- No row of the thread: `latest_row` finds nothing. -/
theorem latest_row_none (rows : List CheckpointRow) (tid : String)
    (h : ∀ r ∈ rows, r.thread_id ≠ tid) : latest_row rows tid = none := by
  rw [latest_row_eq_foldl]
  induction rows with
  | nil => rfl
  | cons r rows ih =>
    have hr : (r.thread_id == tid) = false := by
      simpa using h r (List.mem_cons_self r rows)
    have hstep : latest_step tid none r = none := by
      simp [latest_step, hr]
    rw [List.foldl_cons, hstep]
    exact ih (fun x hx => h x (List.mem_cons_of_mem _ hx))

/-- Shape of the rows appended by a sequence of `put` calls: the old rows
are untouched, one new row per call is appended, every new row belongs to
the thread and carries a timestamp in `[s.next_ts, s.next_ts + N)`. -/
theorem put_many_rows (cps : List (Checkpoint × CheckpointMeta)) :
    ∀ (s : DbState) (T : String),
      ∃ new, (put_many s T cps).rows = s.rows ++ new
        ∧ new.length = cps.length
        ∧ (∀ r ∈ new, r.thread_id = T ∧ s.next_ts ≤ r.created_at
            ∧ r.created_at < s.next_ts + cps.length) := by
  induction cps with
  | nil => intro s T; exact ⟨[], by simp [put_many]⟩
  | cons cm rest ih =>
    intro s T
    obtain ⟨new, hrows, hlen, hmem⟩ := ih (put s T cm.1 cm.2) T
    refine ⟨mk_row s T cm.1 cm.2 :: new, ?_, by simp [hlen], ?_⟩
    · simpa [put_many, put, List.append_assoc] using hrows
    · intro r hr
      rcases List.mem_cons.mp hr with h | h
      · subst h
        refine ⟨rfl, Nat.le_refl _, ?_⟩
        simp only [mk_row, List.length_cons]
        omega
      · obtain ⟨h1, h2, h3⟩ := hmem r h
        have h2' : s.next_ts + 1 ≤ r.created_at := by simpa [put] using h2
        have h3' : r.created_at < s.next_ts + 1 + rest.length := by simpa [put] using h3
        exact ⟨h1, by omega, by simp only [List.length_cons]; omega⟩

theorem put_many_next_ts (cps : List (Checkpoint × CheckpointMeta)) :
    ∀ (s : DbState) (T : String),
      (put_many s T cps).next_ts = s.next_ts + cps.length := by
  induction cps with
  | nil => intro s T; simp [put_many]
  | cons cm rest ih =>
    intro s T
    have h := ih (put s T cm.1 cm.2) T
    have hput : (put s T cm.1 cm.2).next_ts = s.next_ts + 1 := rfl
    show (put_many (put s T cm.1 cm.2) T rest).next_ts = s.next_ts + (rest.length + 1)
    rw [h, hput]
    omega

theorem put_preserves_conversation (s : DbState) (T t : String) (c : Checkpoint)
    (m : CheckpointMeta) (h : t ∈ s.conversations) : t ∈ (put s T c m).conversations := by
  simp only [put, ensure_conversation_exists]
  split
  · exact h
  · exact List.mem_append_left _ h

theorem put_many_preserves_conversation (cps : List (Checkpoint × CheckpointMeta)) :
    ∀ (s : DbState) (T t : String), t ∈ s.conversations →
      t ∈ (put_many s T cps).conversations := by
  induction cps with
  | nil => intro s T t h; exact h
  | cons cm rest ih =>
    intro s T t h
    exact ih _ T t (put_preserves_conversation s T t cm.1 cm.2 h)

theorem put_adds_conversation (s : DbState) (T : String) (c : Checkpoint)
    (m : CheckpointMeta) : T ∈ (put s T c m).conversations := by
  simp only [put, ensure_conversation_exists]
  split
  · next h => exact List.mem_of_elem_eq_true h
  · exact List.mem_append_right _ (List.mem_singleton_self T)

/-- After a non-empty sequence of `put` calls on thread `T`, `get` (with no
fault) returns the serialize-then-deserialize image of the last checkpoint
put. -/
theorem put_many_get_latest (cps : List (Checkpoint × CheckpointMeta)) :
    ∀ (s : DbState) (T : String) (hne : cps ≠ []),
      (∀ r ∈ s.rows, r.created_at < s.next_ts) →
      get (put_many s T cps) T none
        = some (roundtrip_checkpoint (cps.getLast hne).1) := by
  induction cps with
  | nil => intro s T hne; exact absurd rfl hne
  | cons cm rest ih =>
    intro s T hne hwf
    match rest, ih with
    | [], _ =>
      simp only [put_many, List.getLast_singleton]
      have hlatest : latest_row (put s T cm.1 cm.2).rows T
          = some (mk_row s T cm.1 cm.2) := by
        exact latest_row_append s.rows T _ rfl hwf
      simp [get, hlatest, roundtrip_checkpoint, mk_row]
    | r :: rs, ih =>
      have hwf' : ∀ x ∈ (put s T cm.1 cm.2).rows, x.created_at < (put s T cm.1 cm.2).next_ts := by
        intro x hx
        simp only [put, List.mem_append, List.mem_singleton] at hx
        rcases hx with hx | hx
        · exact Nat.lt_succ_of_lt (hwf x hx)
        · subst hx; exact Nat.lt_succ_self _
      have := ih (put s T cm.1 cm.2) T (by simp) hwf'
      simpa [put_many, List.getLast_cons] using this

/-- C4 (amended): for every well-formed store state, thread `T` and
non-empty sequence of sequential `put(T, checkpoint, metadata)` calls,
`put` only appends checkpoint rows — the pre-existing rows reappear
unchanged and in order, followed by one new row per call, all belonging to
`T` — the thread record exists afterwards (and pre-existing thread records
survive), and `get_latest(T)` returns the serialize-then-deserialize image
of the checkpoint passed to the N-th `put` call (identical to it exactly
when that checkpoint survives the round trip; a tool message's
`tool_call_id`, non-`ai` extra kwargs and the parent id do not). -/
theorem c4_put_appends_and_get_latest (s : DbState) (T : String)
    (cps : List (Checkpoint × CheckpointMeta)) (hne : cps ≠ [])
    (hwf : ∀ r ∈ s.rows, r.created_at < s.next_ts) :
    (∃ new, (put_many s T cps).rows = s.rows ++ new
      ∧ new.length = cps.length
      ∧ (∀ r ∈ new, r.thread_id = T))
    ∧ T ∈ (put_many s T cps).conversations
    ∧ (∀ t ∈ s.conversations, t ∈ (put_many s T cps).conversations)
    ∧ get (put_many s T cps) T none
        = some (roundtrip_checkpoint (cps.getLast hne).1) := by
  refine ⟨?_, ?_, ?_, put_many_get_latest cps s T hne hwf⟩
  · obtain ⟨new, h1, h2, h3⟩ := put_many_rows cps s T
    exact ⟨new, h1, h2, fun r hr => (h3 r hr).1⟩
  · match cps, hne with
    | cm :: rest, _ =>
      exact put_many_preserves_conversation rest _ T T
        (put_adds_conversation s T cm.1 cm.2)
  · intro t ht
    exact put_many_preserves_conversation cps s T t ht

/-- A checkpoint whose messages channel holds one tool message. -/
def cp_with_tool_msg : Checkpoint :=
  { v := 1, ts := "2025-11-15T00:00:00", id := "ckpt-1", parent_id := none
    channel_values := { messages := some [Msg.tool "42" [] "call-1"], others := [] }
    channel_versions := [("messages", "1")]
    versions_seen := [] }

def sample_meta : CheckpointMeta := { source := "input", step := -1, writes := none }

/-- C4 counterexample for the claim as stated: after one `put` of a
checkpoint holding a tool message, `get_latest` does not return the
checkpoint that was put — it returns its round-trip image, whose tool
message has lost the answered-call id. -/
theorem c4_counterexample_not_identical :
    get (put DbState.empty "t1" cp_with_tool_msg sample_meta) "t1" none
      ≠ some cp_with_tool_msg
    ∧ get (put DbState.empty "t1" cp_with_tool_msg sample_meta) "t1" none
      = some (roundtrip_checkpoint cp_with_tool_msg) := by
  exact ⟨by decide, rfl⟩

/-- A checkpoint that survives the round trip (no tool message, no parent
id). -/
def sample_checkpoint : Checkpoint :=
  { v := 1, ts := "2025-11-15T00:00:01", id := "ckpt-2", parent_id := none
    channel_values :=
      { messages := some [Msg.human "hi" [], Msg.ai "hello" [] []]
        others := [] }
    channel_versions := [("messages", "2")]
    versions_seen := [] }

/-- Witness for C4: one concrete `put` on the empty store, evaluated. -/
theorem c4_witness :
    get (put_many DbState.empty "t1" [(sample_checkpoint, sample_meta)]) "t1" none
      = some (roundtrip_checkpoint sample_checkpoint) := by
  exact (c4_put_appends_and_get_latest DbState.empty "t1"
    [(sample_checkpoint, sample_meta)] (by decide) (by intro r hr; cases hr)).2.2.2

/-- C10: a storage-layer or deserialization fault while reading the latest
checkpoint makes `get` return `None` (the `except` clause), exactly the
result for a thread with no checkpoint rows at all, and `get_tuple` then
returns `None` as well — the fault never propagates to the caller. -/
theorem c10_get_fault_returns_none (s : DbState) (tid e : String) :
    get s tid (some e) = none
    ∧ get_tuple s tid (some e) = none
    ∧ (∀ s' : DbState, (∀ r ∈ s'.rows, r.thread_id ≠ tid) →
        get s' tid none = none ∧ get_tuple s' tid none = none) := by
  refine ⟨rfl, rfl, ?_⟩
  intro s' h
  have : latest_row s'.rows tid = none := latest_row_none s'.rows tid h
  constructor
  · simp [get, this]
  · simp [get_tuple, get, this]

/-- Witness for C10: a fault on a populated store and a read of an
untouched thread both yield `None`. -/
theorem c10_witness :
    get (put DbState.empty "t1" sample_checkpoint sample_meta) "t2" (some "db down") = none
    ∧ get DbState.empty "t2" none = none := by
  refine ⟨(c10_get_fault_returns_none _ "t2" "db down").1, ?_⟩
  exact ((c10_get_fault_returns_none DbState.empty "t2" "boom").2.2 DbState.empty
    (by intro r hr; cases hr)).1

/-! ### The `get_current_date` month-to-year guide (ai_service.py lines 191-242) -/

/-- The twelve month names enumerated by `get_current_date`. -/
def month_names : List String :=
  ["January", "February", "March", "April", "May", "June",
   "July", "August", "September", "October", "November", "December"]

/-- The separator between month name and year in every guide line — the
source file stores these three characters verbatim (a mojibake rendering of
an arrow). -/
def guide_arrow : String := "â†’"

/-- One line of the month-to-year guide, for month number `m` (1-12), as
built by the loop in `get_current_date`: months strictly before the current
month print next year; the current month prints the conditional
`"(if day > d) or ... (if day <= d)"` text; later months print the current
year. -/
def month_guide_line (current_year current_month current_day m : Nat) : String :=
  let name := month_names.getD (m - 1) ""
  if m < current_month then
    name ++ " " ++ guide_arrow ++ " " ++ toString (current_year + 1)
  else if m = current_month then
    name ++ " " ++ guide_arrow ++ " " ++ toString current_year ++ " (if day > "
      ++ toString current_day ++ ") or " ++ toString (current_year + 1)
      ++ " (if day <= " ++ toString current_day ++ ")"
  else
    name ++ " " ++ guide_arrow ++ " " ++ toString current_year

/-- The `month_year_guide` list built by `get_current_date`: one line per
month number 1..12. -/
def month_year_guide (current_year current_month current_day : Nat) : List String :=
  (List.range 12).map fun i => month_guide_line current_year current_month current_day (i + 1)

/-- The year recommendation encoded in `month_guide_line` for a mention of
day `d` of month `m`: months strictly before the current month map to the
next year; the current month's line names the current year exactly for
`day > current_day` and the next year for `day <= current_day`; months
after the current month map to the current year. -/
def recommended_year (current_year current_month current_day m d : Nat) : Nat :=
  if m < current_month then current_year + 1
  else if m = current_month then
    (if current_day < d then current_year else current_year + 1)
  else current_year

/-- The recommendation rule exactly as the claim words it (for comparison
with `recommended_year`): the claim says the current month maps to the
current year when the mentioned day-of-month is less than or equal to the
current day, and to the next year otherwise. -/
def spec_recommended_year (current_year current_month current_day m d : Nat) : Nat :=
  if m < current_month then current_year + 1
  else if m = current_month then
    (if d ≤ current_day then current_year else current_year + 1)
  else current_year

/-- C2 counterexample: with today = 2025-11-15 (current month 11, current
day 15) and a mention of day 15 of November, the guide line the code emits
names 2026 for `day <= 15`, while the claim's rule demands 2025 — the
current-month condition in the claim is inverted relative to the code. -/
theorem c2_counterexample_current_month_inverted :
    (month_year_guide 2025 11 15)[10]?
      = some ("November " ++ guide_arrow ++ " 2025 (if day > 15) or 2026 (if day <= 15)")
    ∧ recommended_year 2025 11 15 11 15 = 2026
    ∧ spec_recommended_year 2025 11 15 11 15 = 2025
    ∧ recommended_year 2025 11 15 11 15 ≠ spec_recommended_year 2025 11 15 11 15 := by
  exact ⟨rfl, rfl, rfl, by decide⟩

/-- C2 (amended): for every current date `(current_year, current_month,
current_day)` and every month `m` with `1 ≤ m ≤ 12`, the guide's `m`-th
line is `month_guide_line`, and the recommendation it encodes for a
mentioned day `d` is: next year for months strictly before the current
month; for the current month the current year exactly when the mentioned
day-of-month is strictly greater than the current day, and next year when
it is less than or equal to the current day; and the current year for
months strictly after the current month. -/
theorem c2_month_year_guide_rule (cy cm cd m d : Nat) (h1 : 1 ≤ m) (h2 : m ≤ 12) :
    (month_year_guide cy cm cd)[m - 1]? = some (month_guide_line cy cm cd m)
    ∧ (m ≠ cm → month_guide_line cy cm cd m
        = month_names.getD (m - 1) "" ++ " " ++ guide_arrow ++ " "
          ++ toString (recommended_year cy cm cd m d))
    ∧ (m = cm → month_guide_line cy cm cd m
        = month_names.getD (m - 1) "" ++ " " ++ guide_arrow ++ " "
          ++ toString cy ++ " (if day > " ++ toString cd ++ ") or "
          ++ toString (cy + 1) ++ " (if day <= " ++ toString cd ++ ")")
    ∧ (m < cm → recommended_year cy cm cd m d = cy + 1)
    ∧ (m = cm → (cd < d → recommended_year cy cm cd m d = cy)
        ∧ (d ≤ cd → recommended_year cy cm cd m d = cy + 1))
    ∧ (cm < m → recommended_year cy cm cd m d = cy) := by
  refine ⟨?_, ?_, ?_, ?_, ?_, ?_⟩
  · have hm : m - 1 < 12 := by omega
    rw [month_year_guide, List.getElem?_map, List.getElem?_range hm]
    have hm1 : m - 1 + 1 = m := by omega
    rw [Option.map_some', hm1]
  · intro h
    by_cases hlt : m < cm
    · simp [month_guide_line, recommended_year, hlt]
    · have hgt : ¬ m = cm := h
      simp [month_guide_line, recommended_year, hlt, hgt]
  · intro h
    subst h
    simp [month_guide_line]
  · intro h
    simp [recommended_year, h]
  · intro h
    subst h
    constructor
    · intro hd
      simp [recommended_year, hd]
    · intro hd
      simp [recommended_year, Nat.not_lt.mpr hd]
  · intro h
    simp [recommended_year, Nat.lt_asymm h, ne_of_gt h]

/-- Witness for C2 (amended): today 2025-11-15 — January (already passed)
is recommended for 2026. -/
theorem c2_witness : recommended_year 2025 11 15 1 15 = 2026 := by
  exact (c2_month_year_guide_rule 2025 11 15 1 15 (by decide) (by decide)).2.2.2.1
    (by decide)

/-! ### Data Reduction Layer — flights (flight_service.py lines 142-191) -/

/-- JSON text of an empty object, the `.get(key, {})` default. -/
def json_empty_obj : String := "\x7b\x7d"

/-- JSON text of an empty array, the `.get(key, [])` default. -/
def json_empty_arr : String := "[]"

/-- One flight segment as read by the parser: `departure_airport.id`,
`arrival_airport.id`, `airline`, `flight_number` (each possibly absent),
plus the rest of the segment object, carried verbatim into the full
payload. -/
structure FlightSegment where
  departure_airport_id : Option String
  arrival_airport_id : Option String
  airline : Option String
  flight_number : Option String
  extra : String
deriving DecidableEq

/-- One flight option of the provider result: `price`, `total_duration`
(numbers, modelled as rendered), the segment list under key `"flights"`,
`carbon_emissions` and `booking_token`. -/
structure FlightOption where
  price : Option String
  total_duration : Option String
  flights : List FlightSegment
  carbon_emissions : Option String
  booking_token : Option String
deriving DecidableEq

/-- The raw provider result handed to `parse_flight_data_to_toon`: the two
candidate flight lists and the metadata blocks copied into the full
payload (as JSON text). -/
structure FlightData where
  other_flights : List FlightOption
  best_flights : List FlightOption
  search_metadata : Option String
  search_parameters : Option String
  price_insights : Option String
  airports : Option String
deriving DecidableEq

/-- `flight_data.get("other_flights", []) or flight_data.get("best_flights", [])`:
an empty (falsy) `other_flights` falls back to `best_flights`. -/
def flights_list_of (d : FlightData) : List FlightOption :=
  if d.other_flights.isEmpty then d.best_flights else d.other_flights

/-- One line of the compact flight view, structured: the parent option's
`idx`, `price`, `duration` and `stops` followed by the segment's fields. -/
structure FlightToonLine where
  idx : Nat
  price : String
  duration : String
  stops : Int
  dep : String
  arr : String
  airline : String
  flight_num : String
deriving DecidableEq

/-- The fields interpolated for one segment line: `price = flight.get("price",
"N/A")`, `duration = flight.get("total_duration", "N/A")`,
`stops = len(segments) - 1`, and the segment's own fields with the parser's
defaults. -/
def mk_flight_toon_line (idx : Nat) (f : FlightOption) (seg : FlightSegment) :
    FlightToonLine :=
  { idx := idx
    price := f.price.getD "N/A"
    duration := f.total_duration.getD "N/A"
    stops := (f.flights.length : Int) - 1
    dep := seg.departure_airport_id.getD "N/A"
    arr := seg.arrival_airport_id.getD "N/A"
    airline := seg.airline.getD "Unknown"
    flight_num := seg.flight_number.getD "N/A" }

/-- The f-string of one compact flight line:
`"\t\t{idx},{price},{duration},{stops},{dep},{arr},{airline},{flight_num}\n"`. -/
def render_flight_toon_line (l : FlightToonLine) : String :=
  "\t\t" ++ toString l.idx ++ "," ++ l.price ++ "," ++ l.duration ++ ","
    ++ toString l.stops ++ "," ++ l.dep ++ "," ++ l.arr ++ ","
    ++ l.airline ++ "," ++ l.flight_num ++ "\n"

/-- The nested loop `for idx, flight in enumerate(flights_list, 1): for seg
in flight["flights"]: ...` producing one compact line per segment. -/
def flight_toon_lines_from : Nat → List FlightOption → List FlightToonLine
  | _, [] => []
  | idx, f :: rest =>
    f.flights.map (mk_flight_toon_line idx f) ++ flight_toon_lines_from (idx + 1) rest

def flight_toon_lines (fl : List FlightOption) : List FlightToonLine :=
  flight_toon_lines_from 1 fl

/-- One entry of `full_data["flights"]`. -/
structure FlightFullItem where
  idx : Nat
  price : String
  duration : String
  stops : Int
  segments : List FlightSegment
  carbon_emissions : String
  booking_token : String
  raw_data : FlightOption
deriving DecidableEq

def mk_flight_full_item (idx : Nat) (f : FlightOption) : FlightFullItem :=
  { idx := idx
    price := f.price.getD "N/A"
    duration := f.total_duration.getD "N/A"
    stops := (f.flights.length : Int) - 1
    segments := f.flights
    carbon_emissions := f.carbon_emissions.getD json_empty_obj
    booking_token := f.booking_token.getD ""
    raw_data := f }

def flight_full_items : Nat → List FlightOption → List FlightFullItem
  | _, [] => []
  | idx, f :: rest => mk_flight_full_item idx f :: flight_full_items (idx + 1) rest

/-- `full_data` of the flight parser.  In the empty-result branch the dict
is `{"flights": []}` only, so the metadata fields are absent (`none`)
there. -/
structure FlightFullData where
  flights : List FlightFullItem
  search_metadata : Option String
  search_parameters : Option String
  price_insights : Option String
  airports : Option String
deriving DecidableEq

/-- The header line of the compact flight view (ends with the newline and
the four spaces of indentation inside the triple-quoted f-string). -/
def flight_toon_header (n : Nat) : String :=
  "flights [" ++ toString n
    ++ "] \x7bidx, price, duration, stops, departure, arrival, airline, flight_num\x7d\n    "

/-- `parse_flight_data_to_toon`: pick the flight list, short-circuit on an
empty one, otherwise emit the header plus one line per segment and the
full payload. -/
def parse_flight_data_to_toon (d : FlightData) : String × FlightFullData :=
  let fl := flights_list_of d
  if fl.isEmpty then
    ("No flights found.",
     { flights := [], search_metadata := none, search_parameters := none
       price_insights := none, airports := none })
  else
    (flight_toon_header fl.length
       ++ String.join ((flight_toon_lines fl).map render_flight_toon_line),
     { flights := flight_full_items 1 fl
       search_metadata := some (d.search_metadata.getD json_empty_obj)
       search_parameters := some (d.search_parameters.getD json_empty_obj)
       price_insights := some (d.price_insights.getD json_empty_obj)
       airports := some (d.airports.getD json_empty_arr) })

/-! ### Data Reduction Layer — hotels (hotel_service.py lines 69-123) -/

/-- A price dict (`price_per_night` / `total_price`): the
`extracted_price_before_taxes` value the parser reads, plus the rest of the
dict carried verbatim. -/
structure PriceObj where
  extracted_price_before_taxes : Option String
  extra : String
deriving DecidableEq

/-- `p.get(key, {}).get("extracted_price_before_taxes", "N/A")`: both the
missing dict and a missing inner key give `"N/A"`. -/
def extracted_price : Option PriceObj → String
  | none => "N/A"
  | some o => o.extracted_price_before_taxes.getD "N/A"

/-- One property of the provider result, with exactly the fields the
parser reads (numbers by their rendered form; JSON blocks as text). -/
structure HotelProp where
  type : Option String
  name : Option String
  gps_coordinates : Option String
  city : Option String
  country : Option String
  check_in_time : Option String
  check_out_time : Option String
  price_per_night : Option PriceObj
  total_price : Option PriceObj
  offers : Option String
  rating : Option String
  reviews : Option String
  location_rating : Option String
  proximity_to_transit_rating : Option String
  airport_access_rating : Option String
  amenities : List String
  essential_info : Option String
  images : Option String
deriving DecidableEq

/-- The raw provider result handed to `parse_hotel_json`: only
`data.get('properties', [])` is read. -/
structure HotelData where
  properties : List HotelProp
deriving DecidableEq

/-- The `amenities_summary` derivation (hotel_service.py lines 85-91):
0 items give `"None"`, at most 3 items are joined verbatim, more than 3
give the first two joined plus `", +{N-2} more"`. -/
def amenities_summary (amenities : List String) : String :=
  if amenities.length = 0 then "None"
  else if amenities.length ≤ 3 then String.intercalate ", " amenities
  else String.intercalate ", " (amenities.take 2)
    ++ ", +" ++ toString (amenities.length - 2) ++ " more"

/-- One compact hotel line:
`"\t\t{idx},{name},{city},{country},{price_per_night},{total_price},{rating},{reviews},{location_rating},{amenities_summary}\n"`. -/
def hotel_toon_line (idx : Nat) (p : HotelProp) : String :=
  "\t\t" ++ toString idx ++ "," ++ p.name.getD "N/A" ++ "," ++ p.city.getD "N/A"
    ++ "," ++ p.country.getD "N/A" ++ "," ++ extracted_price p.price_per_night
    ++ "," ++ extracted_price p.total_price ++ "," ++ p.rating.getD "0.0"
    ++ "," ++ p.reviews.getD "0" ++ "," ++ p.location_rating.getD "0.0"
    ++ "," ++ amenities_summary p.amenities ++ "\n"

def hotel_toon_lines : Nat → List HotelProp → List String
  | _, [] => []
  | idx, p :: rest => hotel_toon_line idx p :: hotel_toon_lines (idx + 1) rest

/-- One entry of `full_data['properties']` (defaults per the source:
strings default `""`, ratings `0.0`, reviews `0`, lists `[]`, gps `{}`;
the price dicts are stored as-is with default `{}`). -/
structure HotelFullItem where
  idx : Nat
  type : String
  name : String
  gps_coordinates : String
  city : String
  country : String
  check_in_time : String
  check_out_time : String
  price_per_night : Option PriceObj
  total_price : Option PriceObj
  offers : String
  rating : String
  reviews : String
  location_rating : String
  proximity_to_transit_rating : String
  airport_access_rating : String
  amenities : List String
  essential_info : String
  images : String
deriving DecidableEq

def mk_hotel_full_item (idx : Nat) (p : HotelProp) : HotelFullItem :=
  { idx := idx
    type := p.type.getD ""
    name := p.name.getD ""
    gps_coordinates := p.gps_coordinates.getD json_empty_obj
    city := p.city.getD ""
    country := p.country.getD ""
    check_in_time := p.check_in_time.getD ""
    check_out_time := p.check_out_time.getD ""
    price_per_night := p.price_per_night
    total_price := p.total_price
    offers := p.offers.getD json_empty_arr
    rating := p.rating.getD "0.0"
    reviews := p.reviews.getD "0"
    location_rating := p.location_rating.getD "0.0"
    proximity_to_transit_rating := p.proximity_to_transit_rating.getD "0.0"
    airport_access_rating := p.airport_access_rating.getD "0.0"
    amenities := p.amenities
    essential_info := p.essential_info.getD json_empty_arr
    images := p.images.getD json_empty_arr }

def hotel_full_items : Nat → List HotelProp → List HotelFullItem
  | _, [] => []
  | idx, p :: rest => mk_hotel_full_item idx p :: hotel_full_items (idx + 1) rest

structure HotelFullData where
  properties : List HotelFullItem
deriving DecidableEq

/-- The header line of the compact hotel view. -/
def hotel_toon_header (n : Nat) : String :=
  "properties [" ++ toString n
    ++ "] \x7bidx, name, city, country, price_per_night, total_price, rating, reviews, location_rating, amenities_summary\x7d\n"

/-- `parse_hotel_json`: header plus one line per property, and the full
payload; an empty property list just leaves the header alone (no special
branch). -/
def parse_hotel_json (data : HotelData) : String × HotelFullData :=
  (hotel_toon_header data.properties.length
     ++ String.join (hotel_toon_lines 1 data.properties),
   { properties := hotel_full_items 1 data.properties })

/-! ### Data Reduction Layer — news (news_service.py lines 65-102) -/

/-- One article of the provider result, with the fields the parser reads. -/
structure NewsArticle where
  position : Option String
  title : Option String
  link : Option String
  source : Option String
  date : Option String
  snippet : Option String
  favicon : Option String
  thumbnail : Option String
deriving DecidableEq

/-- The raw provider result handed to `parse_news_data`: only
`news_json.get('organic_results', [])` is read. -/
structure NewsData where
  organic_results : List NewsArticle
deriving DecidableEq

/-- One compact news line: `"\t\t{idx},{title},{source},{date},{snippet}\n"`. -/
def news_toon_line (idx : Nat) (a : NewsArticle) : String :=
  "\t\t" ++ toString idx ++ "," ++ a.title.getD "N/A" ++ "," ++ a.source.getD "N/A"
    ++ "," ++ a.date.getD "N/A" ++ "," ++ a.snippet.getD "N/A" ++ "\n"

def news_toon_lines : Nat → List NewsArticle → List String
  | _, [] => []
  | idx, a :: rest => news_toon_line idx a :: news_toon_lines (idx + 1) rest

/-- One entry of `full_data['articles']` (`article.get('position')` has no
default and may be `None`; links default `""`; the toon fields reuse the
`"N/A"`-defaulted values). -/
structure NewsFullItem where
  idx : Nat
  position : Option String
  title : String
  link : String
  source : String
  date : String
  snippet : String
  favicon : String
  thumbnail : String
deriving DecidableEq

def mk_news_full_item (idx : Nat) (a : NewsArticle) : NewsFullItem :=
  { idx := idx
    position := a.position
    title := a.title.getD "N/A"
    link := a.link.getD ""
    source := a.source.getD "N/A"
    date := a.date.getD "N/A"
    snippet := a.snippet.getD "N/A"
    favicon := a.favicon.getD ""
    thumbnail := a.thumbnail.getD "" }

def news_full_items : Nat → List NewsArticle → List NewsFullItem
  | _, [] => []
  | idx, a :: rest => mk_news_full_item idx a :: news_full_items (idx + 1) rest

structure NewsFullData where
  articles : List NewsFullItem
deriving DecidableEq

/-- The header line of the compact news view. -/
def news_toon_header (n : Nat) : String :=
  "news_articles [" ++ toString n ++ "] \x7bidx, title, source, date, snippet\x7d\n"

/-- `parse_news_data`: header plus one line per article, and the full
payload. -/
def parse_news_data (d : NewsData) : String × NewsFullData :=
  (news_toon_header d.organic_results.length
     ++ String.join (news_toon_lines 1 d.organic_results),
   { articles := news_full_items 1 d.organic_results })

/-! ### Data-reduction theorems -/

theorem flight_toon_lines_from_length (fl : List FlightOption) :
    ∀ i, (flight_toon_lines_from i fl).length
      = (fl.map (fun f => f.flights.length)).sum := by
  induction fl with
  | nil => intro i; rfl
  | cons f rest ih =>
    intro i
    simp [flight_toon_lines_from, ih (i + 1)]

theorem flight_toon_lines_from_mem (fl : List FlightOption) :
    ∀ (i : Nat) (l : FlightToonLine), l ∈ flight_toon_lines_from i fl →
      ∃ j f s, fl[j]? = some f ∧ s ∈ f.flights
        ∧ l = mk_flight_toon_line (i + j) f s := by
  induction fl with
  | nil => intro i l h; cases h
  | cons f rest ih =>
    intro i l h
    rcases List.mem_append.mp h with h | h
    · rcases List.mem_map.mp h with ⟨s, hs, hl⟩
      exact ⟨0, f, s, by simp, hs, by simpa using hl.symm⟩
    · obtain ⟨j, f', s, hj, hs, hl⟩ := ih (i + 1) l h
      refine ⟨j + 1, f', s, by simpa using hj, hs, ?_⟩
      rw [hl]
      have harith : i + 1 + j = i + (j + 1) := by omega
      rw [harith]

/-- C8: for a non-empty flight result list the compact view holds exactly
one line per flight segment (an option with k segments contributes k
lines), every line carries its parent option's idx, price, duration and
stops, and the stops value is the option's segment count minus one (so one
segment gives 0 stops and three segments give 2); the compact view emitted
by the parser is the header plus exactly these lines, rendered in order. -/
theorem c8_one_line_per_segment (fl : List FlightOption) (hne : fl ≠ []) :
    (flight_toon_lines fl).length = (fl.map (fun f => f.flights.length)).sum
    ∧ (∀ l ∈ flight_toon_lines fl, ∃ f, fl[l.idx - 1]? = some f
        ∧ l.price = f.price.getD "N/A"
        ∧ l.duration = f.total_duration.getD "N/A"
        ∧ l.stops = (f.flights.length : Int) - 1
        ∧ (f.flights.length = 1 → l.stops = 0)
        ∧ (f.flights.length = 3 → l.stops = 2))
    ∧ (∀ d : FlightData, flights_list_of d = fl →
        (parse_flight_data_to_toon d).1
          = flight_toon_header fl.length
            ++ String.join ((flight_toon_lines fl).map render_flight_toon_line)) := by
  refine ⟨flight_toon_lines_from_length fl 1, ?_, ?_⟩
  · intro l hl
    obtain ⟨j, f, s, hj, _hs, hl⟩ := flight_toon_lines_from_mem fl 1 l hl
    refine ⟨f, ?_, ?_⟩
    · have hidx : l.idx = 1 + j := by rw [hl]; rfl
      have harith : 1 + j - 1 = j := by omega
      rw [hidx, harith]
      exact hj
    · subst hl
      refine ⟨rfl, rfl, rfl, ?_, ?_⟩
      · intro h; simp [mk_flight_toon_line, h]
      · intro h; simp [mk_flight_toon_line, h]
  · intro d hd
    have hfe : (flights_list_of d).isEmpty = false := by
      rw [hd]
      cases fl with
      | nil => exact absurd rfl hne
      | cons f rest => rfl
    simp [parse_flight_data_to_toon, hfe, hd, hne]

/-- A one-option, one-segment flight list for concrete evaluation. -/
def sample_flight_option : FlightOption :=
  { price := some "5300", total_duration := some "130"
    flights := [{ departure_airport_id := some "BOM", arrival_airport_id := some "DEL"
                  airline := some "IndiGo", flight_number := some "6E 123", extra := json_empty_obj }]
    carbon_emissions := none, booking_token := none }

/-- Witness for C8: a single flight with one segment yields exactly one
compact line. -/
theorem c8_witness :
    (flight_toon_lines [sample_flight_option]).length
      = ([sample_flight_option].map (fun f => f.flights.length)).sum := by
  exact (c8_one_line_per_segment [sample_flight_option] (by decide)).1

/-- C3 counterexample: an empty flight result produces the fixed message
`"No flights found."` as its compact view — not a header line stating zero
records (the header the non-empty branch would emit for count 0) — while
the full payload does carry an empty record list. -/
theorem c3_counterexample_flights_no_header :
    (parse_flight_data_to_toon ⟨[], [], none, none, none, none⟩).1 = "No flights found."
    ∧ (parse_flight_data_to_toon ⟨[], [], none, none, none, none⟩).1 ≠ flight_toon_header 0
    ∧ (parse_flight_data_to_toon ⟨[], [], none, none, none, none⟩).2.flights = [] := by
  exact ⟨rfl, by decide, rfl⟩

/-- C3 (amended): an empty result set never raises: the hotel and news
parsers return a compact view whose header states zero records together
with a full payload holding an empty record list, while the flight parser
returns the fixed message `"No flights found."` with a full payload holding
an empty record list. -/
theorem c3_empty_result_sets (fd : FlightData) (hd : HotelData) (nd : NewsData)
    (hof : fd.other_flights = []) (hbf : fd.best_flights = [])
    (hp : hd.properties = []) (hn : nd.organic_results = []) :
    parse_flight_data_to_toon fd
      = ("No flights found.",
         { flights := [], search_metadata := none, search_parameters := none
           price_insights := none, airports := none })
    ∧ parse_hotel_json hd = (hotel_toon_header 0, { properties := [] })
    ∧ parse_news_data nd = (news_toon_header 0, { articles := [] }) := by
  refine ⟨?_, ?_, ?_⟩
  · simp [parse_flight_data_to_toon, flights_list_of, hof, hbf]
  · simp [parse_hotel_json, hp, hotel_toon_lines, hotel_full_items, String.join]
  · simp [parse_news_data, hn, news_toon_lines, news_full_items, String.join]

/-- Witness for C3: the hotel and news parsers evaluated at empty
provider results. -/
theorem c3_witness :
    parse_hotel_json ⟨[]⟩ = (hotel_toon_header 0, { properties := [] })
    ∧ parse_news_data ⟨[]⟩ = (news_toon_header 0, { articles := [] }) := by
  have h := c3_empty_result_sets ⟨[], [], none, none, none, none⟩ ⟨[]⟩ ⟨[]⟩
    rfl rfl rfl rfl
  exact ⟨h.2.1, h.2.2⟩

/-- C9: the `amenities_summary` derivation: `"None"` for zero amenities;
the verbatim comma-joined list for 1 to 3 amenities (3 items joined with no
suffix); and for more than 3, the first two items joined followed by
`", +{N-2} more"`. -/
theorem c9_amenities_summary_rule (l : List String) :
    (l.length = 0 → amenities_summary l = "None")
    ∧ (1 ≤ l.length → l.length ≤ 3 →
        amenities_summary l = String.intercalate ", " l)
    ∧ (3 < l.length → amenities_summary l
        = String.intercalate ", " (l.take 2) ++ ", +"
          ++ toString (l.length - 2) ++ " more") := by
  refine ⟨?_, ?_, ?_⟩
  · intro h
    simp [amenities_summary, h]
  · intro h1 h2
    have h0 : ¬ l.length = 0 := by omega
    simp [amenities_summary, h0, h2]
  · intro h
    have h0 : ¬ l.length = 0 := by omega
    have h3 : ¬ l.length ≤ 3 := by omega
    simp [amenities_summary, h0, h3]

/-- Witness for C9: five amenities give the first two plus `"+3 more"`. -/
theorem c9_witness :
    amenities_summary ["wifi", "pool", "spa", "gym", "bar"]
      = "wifi, pool, +3 more" := by
  have h := (c9_amenities_summary_rule ["wifi", "pool", "spa", "gym", "bar"]).2.2
    (by decide)
  exact h.trans (by decide)

/-! ### The per-request data store and the search tools (ai_service.py) -/

/-- Ordered string-keyed dict lookup (`d.get(k)`): the value at the first
matching key. -/
def dict_get {α : Type} : List (String × α) → String → Option α
  | [], _ => none
  | p :: rest, k => if p.1 == k then some p.2 else dict_get rest k

/-- Ordered string-keyed dict assignment (`d[k] = v`): replace the value
in place when the key is present, append otherwise. -/
def dict_set {α : Type} : List (String × α) → String → α → List (String × α)
  | [], k, v => [(k, v)]
  | p :: rest, k, v => if p.1 == k then (k, v) :: rest else p :: dict_set rest k v

theorem dict_get_set_ne {α : Type} (l : List (String × α)) (k k' : String) (v : α)
    (h : (k' == k) = false) : dict_get (dict_set l k' v) k = dict_get l k := by
  induction l with
  | nil => simp [dict_set, dict_get, h]
  | cons p rest ih =>
    by_cases hp : (p.1 == k') = true
    · have hpk : (p.1 == k) = false := by
        have := eq_of_beq hp
        subst this
        exact h
      simp [dict_set, dict_get, hp, hpk, h]
    · have hp' : (p.1 == k') = false := by simpa using hp
      simp only [dict_set, hp', Bool.false_eq_true, if_false, dict_get]
      by_cases hpk : (p.1 == k) = true
      · simp [dict_get, hpk]
      · have hpk' : (p.1 == k) = false := by simpa using hpk
        simp [dict_get, hpk', ih]

/-- The `_current_request_data` module-level dict: one ordered dict per
data type, exactly the literal `{"flights": {}, "hotels": {}, "news": {}}`
shape. -/
structure RequestDataStore where
  flights : List (String × FlightFullData)
  hotels : List (String × HotelFullData)
  news : List (String × NewsFullData)
deriving DecidableEq

/-- The reset literal assigned at the start of `chat` (and by
`clear_data_store`). -/
def RequestDataStore.empty : RequestDataStore := { flights := [], hotels := [], news := [] }

/-! #### The search tools.  Each tool's collaborator call sits inside a
`try`/`except Exception` whose result is modelled explicitly: `data` is a
truthy provider result, `null` a `None` (or falsy) result, `exc` an
exception raised during the call. -/

inductive FlightFetch where
  | data (d : FlightData)
  | null
  | exc (e : String)
deriving DecidableEq

/-- `search_flights` (ai_service.py lines 281-306): a falsy result returns
the no-results message; otherwise the result is reduced, the full payload
is deposited under `f"{departure}_{arrival}_{outbound_date}"` and the
compact view is returned; any exception is caught and returned as
`f"Error searching flights: {e}"`.  In every case a string is returned —
the tool never raises. -/
def search_flights (store : RequestDataStore) (departure arrival outbound_date : String)
    (fetch : FlightFetch) : String × RequestDataStore :=
  match fetch with
  | .exc e => ("Error searching flights: " ++ e, store)
  | .null => ("No flights found for the given route and dates.", store)
  | .data d =>
    let key := departure ++ "_" ++ arrival ++ "_" ++ outbound_date
    let parsed := parse_flight_data_to_toon d
    (parsed.1, { store with flights := dict_set store.flights key parsed.2 })

inductive HotelFetch where
  | data (d : HotelData)
  | null
  | exc (e : String)
deriving DecidableEq

/-- `search_hotels` (ai_service.py lines 334-352): as for flights, with
deposit key `f"{location}_{check_in_date}_{check_out_date}"` and error
string `f"Error searching hotels: {e}"`. -/
def search_hotels (store : RequestDataStore) (check_in_date check_out_date location : String)
    (fetch : HotelFetch) : String × RequestDataStore :=
  match fetch with
  | .exc e => ("Error searching hotels: " ++ e, store)
  | .null => ("No hotels found for the given location and dates.", store)
  | .data d =>
    let key := location ++ "_" ++ check_in_date ++ "_" ++ check_out_date
    let parsed := parse_hotel_json d
    (parsed.1, { store with hotels := dict_set store.hotels key parsed.2 })

inductive NewsFetch where
  | data (d : NewsData)
  | null
  | exc (e : String)
deriving DecidableEq

/-- `search_news` (ai_service.py 371-384): a falsy result or an empty
`organic_results` list returns the no-articles message before anything is
parsed or deposited; otherwise the full payload is deposited under the
query itself; exceptions come back as `f"Error searching news: {e}"`. -/
def search_news (store : RequestDataStore) (query : String)
    (fetch : NewsFetch) : String × RequestDataStore :=
  match fetch with
  | .exc e => ("Error searching news: " ++ e, store)
  | .null => ("No news articles found for the given query.", store)
  | .data d =>
    if d.organic_results.isEmpty then
      ("No news articles found for the given query.", store)
    else
      let parsed := parse_news_data d
      (parsed.1, { store with news := dict_set store.news query parsed.2 })

/-! #### City-to-code normalization and `get_flight_details`
(flight_service.py lines 43-138) -/

/-- One entry of the IATA table (`IATA.json`): city name, IATA code, ICAO
code. -/
structure IataEntry where
  city : String
  iata : String
  icao : String
deriving DecidableEq

/-- Python `str.lower()`, modelled character-wise (extensionally the same
as `String.toLower`, but written so that it evaluates by reduction). -/
def py_lower (s : String) : String := ⟨s.data.map Char.toLower⟩

/-- `get_iata`: scan the table for the first entry whose city matches
case-insensitively (`value.get("city", "").lower() == city_name.lower()`)
and return its `iata` — falling back to `icao` when the `iata` value is
falsy (`""`); `None` when no entry matches. -/
def get_iata (table : List IataEntry) (city_name : String) : Option String :=
  (table.find? (fun v => py_lower v.city == py_lower city_name)).map
    (fun v => if v.iata == "" then v.icao else v.iata)

/-- Python falsiness of a looked-up code (`if not departure_iata`): `None`
or the empty string. -/
def code_missing : Option String → Bool
  | none => true
  | some s => s == ""

/-- The behaviour of the HTTP call inside `get_flight_details`:
a parsed 2xx JSON body, an `httpx.HTTPError` (including
`raise_for_status`), or any other exception, which that function does not
catch. -/
inductive FlightNet where
  | response (d : FlightData)
  | httpError (e : String)
  | exc (e : String)
deriving DecidableEq

/-- `get_flight_details`: when either city fails code normalization the
function returns `None` before any request is made; otherwise an
`httpx.HTTPError` is caught and turned into `None`, a good response is
returned (a falsy `{}` body is covered by `.null`), and any other
exception propagates to the caller (`search_flights`' catch-all). -/
def get_flight_details (table : List IataEntry) (departure arrival : String)
    (net : FlightNet) : FlightFetch :=
  if code_missing (get_iata table departure) || code_missing (get_iata table arrival) then
    .null
  else
    match net with
    | .response d => .data d
    | .httpError _ => .null
    | .exc e => .exc e

/-- The `search_flights` tool composed with its collaborator
`get_flight_details`. -/
def search_flights_tool (table : List IataEntry) (store : RequestDataStore)
    (departure arrival outbound_date : String) (net : FlightNet) :
    String × RequestDataStore :=
  search_flights store departure arrival outbound_date
    (get_flight_details table departure arrival net)

/-! #### Tool dispatch -/

/-- One requested tool invocation of a reasoning turn, with its
collaborator outcome. -/
inductive ToolInvocation where
  | flights (departure arrival outbound_date : String) (fetch : FlightFetch)
  | hotels (check_in_date check_out_date location : String) (fetch : HotelFetch)
  | news (query : String) (fetch : NewsFetch)
deriving DecidableEq

def run_tool (store : RequestDataStore) : ToolInvocation → String × RequestDataStore
  | .flights dep arr od f => search_flights store dep arr od f
  | .hotels cin cout loc f => search_hotels store cin cout loc f
  | .news q f => search_news store q f

/-- Modelled from the spec: (§4.3) the Tool Dispatcher executes the turn's
ToolCallRequests in order, producing one result message per call — the
repository delegates this loop to langgraph's `ToolNode`, an external
dependency, so the loop itself is not under `src/`.  Since every tool
returns its errors as strings, dispatch is total. -/
def dispatch_tool_calls (store : RequestDataStore) :
    List ToolInvocation → List String × RequestDataStore
  | [] => ([], store)
  | c :: rest =>
    let r := run_tool store c
    let rs := dispatch_tool_calls r.2 rest
    (r.1 :: rs.1, rs.2)

/-! #### The `chat` entry point's data-store behaviour -/

/-- One deposit made by a tool call during an invocation. -/
inductive Deposit where
  | flights (key : String) (data : FlightFullData)
  | hotels (key : String) (data : HotelFullData)
  | news (key : String) (data : NewsFullData)
deriving DecidableEq

def apply_deposit (s : RequestDataStore) : Deposit → RequestDataStore
  | .flights k d => { s with flights := dict_set s.flights k d }
  | .hotels k d => { s with hotels := dict_set s.hotels k d }
  | .news k d => { s with news := dict_set s.news k d }

/-- The data-store behaviour of one top-level `chat` invocation
(ai_service.py lines 497-523): whatever the previous invocation left in
the module-level `_current_request_data` is replaced by the empty literal
before the agent runs; the deposits this run's tool calls make are applied
in order; the resulting store is what `chat` returns as `data_store`. -/
def chat_data_store (_prev : RequestDataStore) (deposits : List Deposit) :
    RequestDataStore :=
  deposits.foldl apply_deposit RequestDataStore.empty

/-- The payload `get_stored_data` returns: a typed payload, or the `{}`
default for an unknown data type or an unseen key. -/
inductive StoredPayload where
  | flights (d : FlightFullData)
  | hotels (d : HotelFullData)
  | news (d : NewsFullData)
  | emptyDict
deriving DecidableEq

/-- `get_stored_data` (ai_service.py lines 526-540):
`_current_request_data.get(data_type, {}).get(key, {})`. -/
def get_stored_data (s : RequestDataStore) (data_type key : String) : StoredPayload :=
  if data_type == "flights" then
    match dict_get s.flights key with
    | some d => .flights d
    | none => .emptyDict
  else if data_type == "hotels" then
    match dict_get s.hotels key with
    | some d => .hotels d
    | none => .emptyDict
  else if data_type == "news" then
    match dict_get s.news key with
    | some d => .news d
    | none => .emptyDict
  else .emptyDict

/-- Does a deposit list touch `(data_type, key)`? -/
def deposit_matches (data_type key : String) : Deposit → Bool
  | .flights k _ => data_type == "flights" && k == key
  | .hotels k _ => data_type == "hotels" && k == key
  | .news k _ => data_type == "news" && k == key

def deposits_under (deps : List Deposit) (data_type key : String) : Bool :=
  deps.any (deposit_matches data_type key)

/-! ### Isolation and error-handling theorems for the tools -/

theorem fold_deposits_flights (deps : List Deposit) :
    ∀ (s : RequestDataStore) (k : String),
      deposits_under deps "flights" k = false →
      dict_get (deps.foldl apply_deposit s).flights k = dict_get s.flights k := by
  induction deps with
  | nil => intro s k _h; rfl
  | cons d rest ih =>
    intro s k h
    rw [deposits_under, List.any_cons, Bool.or_eq_false_iff] at h
    obtain ⟨h1, h2⟩ := h
    rw [List.foldl_cons, ih (apply_deposit s d) k h2]
    cases d with
    | flights k' v =>
      have hk : (k' == k) = false := by simpa [deposit_matches] using h1
      simp [apply_deposit, dict_get_set_ne _ _ _ _ hk]
    | hotels k' v => rfl
    | news k' v => rfl

theorem fold_deposits_hotels (deps : List Deposit) :
    ∀ (s : RequestDataStore) (k : String),
      deposits_under deps "hotels" k = false →
      dict_get (deps.foldl apply_deposit s).hotels k = dict_get s.hotels k := by
  induction deps with
  | nil => intro s k _h; rfl
  | cons d rest ih =>
    intro s k h
    rw [deposits_under, List.any_cons, Bool.or_eq_false_iff] at h
    obtain ⟨h1, h2⟩ := h
    rw [List.foldl_cons, ih (apply_deposit s d) k h2]
    cases d with
    | flights k' v => rfl
    | hotels k' v =>
      have hk : (k' == k) = false := by simpa [deposit_matches] using h1
      simp [apply_deposit, dict_get_set_ne _ _ _ _ hk]
    | news k' v => rfl

theorem fold_deposits_news (deps : List Deposit) :
    ∀ (s : RequestDataStore) (k : String),
      deposits_under deps "news" k = false →
      dict_get (deps.foldl apply_deposit s).news k = dict_get s.news k := by
  induction deps with
  | nil => intro s k _h; rfl
  | cons d rest ih =>
    intro s k h
    rw [deposits_under, List.any_cons, Bool.or_eq_false_iff] at h
    obtain ⟨h1, h2⟩ := h
    rw [List.foldl_cons, ih (apply_deposit s d) k h2]
    cases d with
    | flights k' v => rfl
    | hotels k' v => rfl
    | news k' v =>
      have hk : (k' == k) = false := by simpa [deposit_matches] using h1
      simp [apply_deposit, dict_get_set_ne _ _ _ _ hk]

/-- C5: the RequestDataStore is reset to the empty literal at the start of
every top-level `chat` invocation, so the store invocation B returns is a
function of B's own deposits alone — whatever a previous invocation A left
in the module-level dict is discarded — and any `(data_type, key)` that
B's deposits do not touch is absent from B's returned store: reading it
with `get_stored_data` gives the `{}` default. -/
theorem c5_request_store_isolation (prevA : RequestDataStore) (depsB : List Deposit)
    (dt k : String) (h : deposits_under depsB dt k = false) :
    chat_data_store prevA depsB = chat_data_store RequestDataStore.empty depsB
    ∧ get_stored_data (chat_data_store prevA depsB) dt k = StoredPayload.emptyDict := by
  refine ⟨rfl, ?_⟩
  by_cases h1 : (dt == "flights") = true
  · have hdt : dt = "flights" := eq_of_beq h1
    subst hdt
    have hnone : dict_get (chat_data_store prevA depsB).flights k = none := by
      rw [chat_data_store, fold_deposits_flights depsB RequestDataStore.empty k h]
      rfl
    simp [get_stored_data, hnone]
  · by_cases h2 : (dt == "hotels") = true
    · have hdt : dt = "hotels" := eq_of_beq h2
      subst hdt
      have hnone : dict_get (chat_data_store prevA depsB).hotels k = none := by
        rw [chat_data_store, fold_deposits_hotels depsB RequestDataStore.empty k h]
        rfl
      simp [get_stored_data, hnone]
    · by_cases h3 : (dt == "news") = true
      · have hdt : dt = "news" := eq_of_beq h3
        subst hdt
        have hnone : dict_get (chat_data_store prevA depsB).news k = none := by
          rw [chat_data_store, fold_deposits_news depsB RequestDataStore.empty k h]
          rfl
        simp [get_stored_data, hnone]
      · simp [get_stored_data, h1, h2, h3]

/-- A full flight payload as deposited by a search during some invocation
A. -/
def sample_flight_full : FlightFullData :=
  { flights := [], search_metadata := none, search_parameters := none
    price_insights := none, airports := none }

/-- Witness for C5: a flight payload deposited under
`"Mumbai_Delhi_2025-12-15"` by invocation A is invisible to an invocation
B that makes no deposit. -/
theorem c5_witness :
    get_stored_data
      (chat_data_store
        { flights := [("Mumbai_Delhi_2025-12-15", sample_flight_full)]
          hotels := [], news := [] }
        [])
      "flights" "Mumbai_Delhi_2025-12-15" = StoredPayload.emptyDict := by
  exact (c5_request_store_isolation
    { flights := [("Mumbai_Delhi_2025-12-15", sample_flight_full)]
      hotels := [], news := [] }
    [] "flights" "Mumbai_Delhi_2025-12-15" (by decide)).2

theorem dispatch_length (calls : List ToolInvocation) :
    ∀ store, (dispatch_tool_calls store calls).1.length = calls.length := by
  induction calls with
  | nil => intro store; rfl
  | cons c rest ih =>
    intro store
    simp [dispatch_tool_calls, ih]

/-- C6: every per-call failure inside the three search tools — any
exception raised by the collaborator call — is caught by the tool's
`except` clause and returned as a string carrying a human-readable error
description, with nothing deposited into the RequestDataStore; and since
every tool call returns a string rather than raising, dispatching a turn's
requested calls always produces exactly one result message per call, so
sibling tool calls of the same turn and the run itself proceed. -/
theorem c6_tool_errors_are_caught :
    (∀ (store : RequestDataStore) (dep arr od e : String),
        search_flights store dep arr od (.exc e)
          = ("Error searching flights: " ++ e, store))
    ∧ (∀ (store : RequestDataStore) (cin cout loc e : String),
        search_hotels store cin cout loc (.exc e)
          = ("Error searching hotels: " ++ e, store))
    ∧ (∀ (store : RequestDataStore) (q e : String),
        search_news store q (.exc e) = ("Error searching news: " ++ e, store))
    ∧ (∀ (store : RequestDataStore) (calls : List ToolInvocation),
        (dispatch_tool_calls store calls).1.length = calls.length) :=
  ⟨fun _ _ _ _ _ => rfl, fun _ _ _ _ _ => rfl, fun _ _ _ => rfl,
   fun store calls => dispatch_length calls store⟩

/-- C7: when city-to-code normalization fails for the departure or the
arrival city (no table entry, or a falsy code), `get_flight_details`
returns `None` before any request is made, and `search_flights` turns that
into the user-facing no-results message, leaving the RequestDataStore
untouched — independently of what the network call would have done. -/
theorem c7_missing_codes_no_results (table : List IataEntry) (store : RequestDataStore)
    (dep arr od : String) (net : FlightNet)
    (h : code_missing (get_iata table dep) = true
      ∨ code_missing (get_iata table arr) = true) :
    search_flights_tool table store dep arr od net
      = ("No flights found for the given route and dates.", store) := by
  have hcond : (code_missing (get_iata table dep)
      || code_missing (get_iata table arr)) = true := by
    rcases h with h | h <;> simp [h]
  unfold search_flights_tool get_flight_details
  rw [if_pos hcond]
  rfl

/-- A two-city IATA table. -/
def sample_iata_table : List IataEntry :=
  [⟨"Mumbai", "BOM", "VABB"⟩, ⟨"Delhi", "DEL", "VIDP"⟩]

/-- Witness for C7: a departure city absent from the table gives the
no-results message and leaves the store empty, even though the network
stub would have answered. -/
theorem c7_witness :
    search_flights_tool sample_iata_table RequestDataStore.empty
      "Atlantis" "Delhi" "2025-12-15" (.httpError "unused")
      = ("No flights found for the given route and dates.", RequestDataStore.empty) := by
  exact c7_missing_codes_no_results sample_iata_table RequestDataStore.empty
    "Atlantis" "Delhi" "2025-12-15" (.httpError "unused") (Or.inl (by decide))

end TPA
